import Mathlib

/-!
# frakti: privileged (docker) runtime construction

Shallow embedding of `pkg/docker/privilegedruntime.go`.

* Go strings are Lean strings; a Go `error` is the text of its `Error()` method.
* A Go pointer is an `Option` (`none` is the nil pointer).
* An interface value is either the nil interface or a dynamic type together with
  its value (see `network.LegacyHost`).
* The packages the file imports (kubelet configuration defaulting and conversion,
  libdocker, dockershim, strconv quoting) are external collaborators; they are the
  fields of `Collaborators` and every theorem quantifies over them.
* Construction is a function from its inputs to the list of observable events it
  performs (log lines, collaborator calls, the spawned listener) and its outcome.
-/

namespace Frakti

set_option maxRecDepth 100000

/-! ## Data model -/

/-- Go `error` value, identified with the text returned by its `Error` method. -/
structure GoError where
  Error : String
deriving DecidableEq, Repr

/-- Pod object of the orchestrator API (`v1.Pod`); only its identity matters here. -/
structure v1.Pod where
  Namespace : String
  Name : String
deriving DecidableEq, Repr

/-- Dynamic value behind a `clientset.Interface`. -/
structure clientset.Client where
  id : Nat
deriving DecidableEq, Repr

/-- Dynamic value behind a `kubecontainer.Runtime`. -/
structure kubecontainer.RuntimeImpl where
  id : Nat
deriving DecidableEq, Repr

/-- The empty struct `type noOpLegacyHost struct{}`. -/
structure noOpLegacyHost where
deriving DecidableEq, Repr

/-- Interface value of type `network.LegacyHost`: the nil interface, or the dynamic
type `*noOpLegacyHost` holding a (possibly nil) pointer. -/
inductive network.LegacyHost where
  | nilInterface
  | noOpLegacyHostPtr (ptr : Option noOpLegacyHost)
deriving DecidableEq, Repr

/-- The fields of `streaming.Config` this file reads. -/
structure streaming.Config where
  Addr : String
deriving DecidableEq, Repr

/-- The fields of the external (v1alpha1) `KubeletConfiguration` relevant here. -/
structure componentconfigv1alpha1.KubeletConfiguration where
  RuntimeRequestTimeout : Int := 0
  HairpinMode : String := ""
  NonMasqueradeCIDR : String := ""
  SeccompProfileRoot : String := ""
  RuntimeCgroups : String := ""
deriving DecidableEq, Repr

/-- The fields of the internal `componentconfig.KubeletConfiguration` read here. -/
structure componentconfig.KubeletConfiguration where
  RuntimeRequestTimeout : Int := 0
  HairpinMode : String := ""
  NonMasqueradeCIDR : String := ""
  SeccompProfileRoot : String := ""
  RuntimeCgroups : String := ""
deriving DecidableEq, Repr

/-- The fields of `options.ContainerRuntimeOptions` read here. -/
structure options.ContainerRuntimeOptions where
  ImagePullProgressDeadline : Int
  PodSandboxImage : String
  DockerExecHandlerName : String
  DockerDisableSharedPID : Bool
deriving DecidableEq, Repr

/-- Value of `dockershim.NetworkPluginSettings`. -/
structure dockershim.NetworkPluginSettings where
  HairpinMode : String
  NonMasqueradeCIDR : String
  PluginName : String
  PluginConfDir : String
  PluginBinDir : String
  MTU : Int
  LegacyRuntimeHost : network.LegacyHost
deriving DecidableEq, Repr

/-- Engine client handle (`libdocker.Interface`). -/
structure libdocker.Client where
  id : Nat
deriving DecidableEq, Repr

/-- The field of the engine's `Info` answer read here. -/
structure libdocker.Info where
  CgroupDriver : String
deriving DecidableEq, Repr

/-- Interface value `dockershim.DockerService`, identified by a handle. -/
structure dockershim.DockerService where
  id : Nat
deriving DecidableEq, Repr

/-- The ten arguments of `dockershim.NewDockerService`, in call order. -/
structure dockershim.NewDockerServiceArgs where
  client : libdocker.Client
  seccompProfileRoot : String
  podSandboxImage : String
  streamingConfig : Option streaming.Config
  pluginSettings : dockershim.NetworkPluginSettings
  cgroupsName : String
  kubeCgroupDriver : String
  execHandlerName : String
  dockershimRootDir : String
  disableSharedPID : Bool
deriving DecidableEq, Repr

/-- The facade: `type PrivilegedRuntime struct { dockershim.DockerService }`. -/
structure PrivilegedRuntime where
  DockerService : dockershim.DockerService
deriving DecidableEq, Repr

/-- External collaborators of construction. `ConnectToDockerOrDie` answers `none`
when it terminates the process instead of returning. `Quote` is `strconv.Quote`,
the rendering of the `%q` verb. -/
structure Collaborators where
  SetDefaults_KubeletConfiguration :
    componentconfigv1alpha1.KubeletConfiguration → componentconfigv1alpha1.KubeletConfiguration
  Convert : componentconfigv1alpha1.KubeletConfiguration →
    Except GoError componentconfig.KubeletConfiguration
  NewContainerRuntimeOptions : options.ContainerRuntimeOptions
  ConnectToDockerOrDie : String → Int → Int → Option libdocker.Client
  Info : libdocker.Client → Except GoError libdocker.Info
  NewDockerService : dockershim.NewDockerServiceArgs → Except GoError dockershim.DockerService
  Quote : String → String

/-- Severity of a glog line. -/
inductive Severity where
  | info
  | warning
  | error
deriving DecidableEq, Repr

/-- Observable steps of construction, in program order. -/
inductive Event where
  | glog (sev : Severity) (msg : String)
  | convert (res : Except GoError componentconfig.KubeletConfiguration)
  | connectToDockerOrDie (endpoint : String) (res : Option libdocker.Client)
  | info (res : Except GoError libdocker.Info)
  | newDockerService (args : dockershim.NewDockerServiceArgs)
      (res : Except GoError dockershim.DockerService)
  | startPrivilegedStreamingServer (streamingConfig : Option streaming.Config)
      (ds : dockershim.DockerService)
  | goListenAndServe (addr : String) (handler : dockershim.DockerService)

/-- How a call of `NewPrivilegedRuntimeService` ends: it returns its pair of
results, the process is terminated by `ConnectToDockerOrDie`, or it panics on a
nil pointer dereference. -/
inductive Outcome where
  | returned (facade : Option PrivilegedRuntime) (err : Option GoError)
  | processExit
  | nilDereference
deriving DecidableEq, Repr

/-! ## Formatting -/

/-- The verbs of `fmt.Sprintf` used by this file, over the characters of the format:
`%q` writes the quoted operand, `%v` the operand as is. Operands are passed as
their text. A verb without operand writes Go's `MISSING` marker; Go's `EXTRA`
marker for surplus operands is left out, no call in the file has any. -/
def formatVerbs (quote : String → String) : List Char → List String → List Char
  | [], _ => []
  | [c], _ => [c]
  | c :: v :: rest, [] =>
    if c = '%' ∧ (v = 'q' ∨ v = 'v') then
      '%' :: '!' :: v :: "(MISSING)".data ++ formatVerbs quote rest []
    else c :: formatVerbs quote (v :: rest) []
  | c :: v :: rest, a :: args =>
    if c = '%' ∧ v = 'q' then (quote a).data ++ formatVerbs quote rest args
    else if c = '%' ∧ v = 'v' then a.data ++ formatVerbs quote rest args
    else c :: formatVerbs quote (v :: rest) (a :: args)

/-- Model of `fmt.Sprintf`. -/
def Sprintf (quote : String → String) (format : String) (args : List String) : String :=
  String.mk (formatVerbs quote format.data args)

/-- Model of `fmt.Errorf`. -/
def Errorf (quote : String → String) (format : String) (args : List String) : GoError :=
  ⟨Sprintf quote format args⟩

/-! ## The source file -/

/-- Plugin name constant: `networkPluginName = "cni"`. -/
def networkPluginName : String := "cni"

/-- MTU constant: `networkPluginMTU = 1460`. -/
def networkPluginMTU : Int := 1460

/-- Method `(p *PrivilegedRuntime) ServiceName()`. The constant
`alternativeruntime.PrivilegedRuntimeName` is declared in another package of the
repository and is taken as a parameter. -/
def PrivilegedRuntime.ServiceName (PrivilegedRuntimeName : String)
    (_p : Option PrivilegedRuntime) : String :=
  PrivilegedRuntimeName

/-- Method `(n *noOpLegacyHost) GetPodByName(namespace, name)`. -/
def noOpLegacyHost.GetPodByName (_n : Option noOpLegacyHost) (_namespace _name : String) :
    Option v1.Pod × Bool :=
  (none, true)

/-- Method `(n *noOpLegacyHost) GetKubeClient()`. -/
def noOpLegacyHost.GetKubeClient (_n : Option noOpLegacyHost) : Option clientset.Client :=
  none

/-- Method `(n *noOpLegacyHost) GetRuntime()`. -/
def noOpLegacyHost.GetRuntime (_n : Option noOpLegacyHost) : Option kubecontainer.RuntimeImpl :=
  none

/-- Method `(nh *noOpLegacyHost) SupportsLegacyFeatures()`. -/
def noOpLegacyHost.SupportsLegacyFeatures (_nh : Option noOpLegacyHost) : Bool :=
  false

/-- Function `startPrivilegedStreamingServer`: reading `streamingConfig.Addr`
dereferences the pointer; with a config the listener goroutine is spawned. The
answer is the events performed and whether the function returned (`false`: nil
dereference). -/
def startPrivilegedStreamingServer (streamingConfig : Option streaming.Config)
    (ds : dockershim.DockerService) : List Event × Bool :=
  match streamingConfig with
  | none => ([.startPrivilegedStreamingServer streamingConfig ds], false)
  | some cfg =>
    ([.startPrivilegedStreamingServer streamingConfig ds, .goListenAndServe cfg.Addr ds], true)

/-- Function `NewPrivilegedRuntimeService`: the events it performs and its outcome. -/
def NewPrivilegedRuntimeService (env : Collaborators) (privilegedRuntimeEndpoint : String)
    (streamingConfig : Option streaming.Config)
    (cniNetDir cniPluginDir cgroupDriver privilegedRuntimeRootDir : String) :
    List Event × Outcome :=
  let t0 := [Event.glog .info "Initialize privileged runtime: docker runtime\n"]
  let extKubeCfg := env.SetDefaults_KubeletConfiguration {}
  let crOption := env.NewContainerRuntimeOptions
  match env.Convert extKubeCfg with
  | .error err => (t0 ++ [.convert (.error err)], .returned none (some err))
  | .ok kubeCfg =>
    let t1 := t0 ++ [.convert (.ok kubeCfg)]
    match env.ConnectToDockerOrDie privilegedRuntimeEndpoint kubeCfg.RuntimeRequestTimeout
        crOption.ImagePullProgressDeadline with
    | none => (t1 ++ [.connectToDockerOrDie privilegedRuntimeEndpoint none], .processExit)
    | some dockerClient =>
      let t2 := t1 ++ [.connectToDockerOrDie privilegedRuntimeEndpoint (some dockerClient)]
      let pluginSettings0 : dockershim.NetworkPluginSettings :=
        { HairpinMode := kubeCfg.HairpinMode
          NonMasqueradeCIDR := kubeCfg.NonMasqueradeCIDR
          PluginName := networkPluginName
          PluginConfDir := cniNetDir
          PluginBinDir := cniPluginDir
          MTU := networkPluginMTU
          LegacyRuntimeHost := .nilInterface }
      let nl : Option noOpLegacyHost := none
      let pluginSettings := { pluginSettings0 with LegacyRuntimeHost := .noOpLegacyHostPtr nl }
      match env.Info dockerClient with
      | .error err =>
        (t2 ++ [.info (.error err)],
          .returned none (some (Errorf env.Quote "failed to get info from docker: %v" [err.Error])))
      | .ok dockerInfo =>
        let t3 := t2 ++ [.info (.ok dockerInfo)]
        -- lines 86-90: the outcome of the driver check is the events it logs, or the error
        let driverCheck : Except GoError (List Event) :=
          if dockerInfo.CgroupDriver.length = 0 then
            .ok [.glog .warning (Sprintf env.Quote
              "No cgroup driver is set in Docker, use frakti configuration: %q" [cgroupDriver])]
          else if dockerInfo.CgroupDriver ≠ cgroupDriver then
            .error (Errorf env.Quote
              "misconfiguration: frakti cgroup driver: %q is different from docker cgroup driver: %q"
              [dockerInfo.CgroupDriver, cgroupDriver])
          else .ok []
        match driverCheck with
        | .error err => (t3, .returned none (some err))
        | .ok logged =>
          let t4 := t3 ++ logged
          let args : dockershim.NewDockerServiceArgs :=
            { client := dockerClient
              seccompProfileRoot := kubeCfg.SeccompProfileRoot
              podSandboxImage := crOption.PodSandboxImage
              streamingConfig := streamingConfig
              pluginSettings := pluginSettings
              cgroupsName := kubeCfg.RuntimeCgroups
              kubeCgroupDriver := cgroupDriver
              execHandlerName := crOption.DockerExecHandlerName
              dockershimRootDir := privilegedRuntimeRootDir
              disableSharedPID := crOption.DockerDisableSharedPID }
          match env.NewDockerService args with
          | .error err => (t4 ++ [.newDockerService args (.error err)], .returned none (some err))
          | .ok ds =>
            let t5 := t4 ++ [.newDockerService args (.ok ds)]
            match startPrivilegedStreamingServer streamingConfig ds with
            | (started, false) => (t5 ++ started, .nilDereference)
            | (started, true) => (t5 ++ started, .returned (some ⟨ds⟩) none)

/-! ## Observations on a run -/

/-- The warning lines of a run, in order. -/
def warningsOf : List Event → List String
  | [] => []
  | .glog .warning msg :: t => msg :: warningsOf t
  | _ :: t => warningsOf t

/-- The argument records of the calls of `dockershim.NewDockerService` in a run. -/
def newDockerServiceCalls : List Event → List dockershim.NewDockerServiceArgs
  | [] => []
  | .newDockerService args _ :: t => args :: newDockerServiceCalls t
  | _ :: t => newDockerServiceCalls t

/-- The calls of `startPrivilegedStreamingServer` in a run, with their arguments. -/
def streamingStarts : List Event → List (Option streaming.Config × dockershim.DockerService)
  | [] => []
  | .startPrivilegedStreamingServer cfg ds :: t => (cfg, ds) :: streamingStarts t
  | _ :: t => streamingStarts t

/-- The listeners spawned in a run: bind address and handler. -/
def listenersOf : List Event → List (String × dockershim.DockerService)
  | [] => []
  | .goListenAndServe addr h :: t => (addr, h) :: listenersOf t
  | _ :: t => listenersOf t

/-- An event that records one of the four failures of construction: a conversion
error, an `Info` query error, a non-empty engine driver different from
`cgroupDriver`, or an error of `dockershim.NewDockerService`. -/
def recordsFailure (cgroupDriver : String) : Event → Prop
  | .convert (.error _) => True
  | .info (.error _) => True
  | .info (.ok info) => info.CgroupDriver ≠ "" ∧ info.CgroupDriver ≠ cgroupDriver
  | .newDockerService _ (.error _) => True
  | _ => False

/-- Text `sub` occurs in text `s`. -/
def ContainsText (s sub : String) : Prop :=
  ∃ before after : String, s = before ++ sub ++ after

/-! ## Concrete collaborators for the examples -/

/-- Quoting of a text made of printable characters other than the double quote
and the backslash, for which `strconv.Quote` only adds the enclosing quotes. -/
def plainQuote (s : String) : String := "\"" ++ s ++ "\""

/-- The configuration `okEnv` yields after defaulting and conversion. -/
def sampleKubeCfg : componentconfig.KubeletConfiguration :=
  { HairpinMode := "promiscuous-bridge", NonMasqueradeCIDR := "10.0.0.0/8" }

/-- A collaborator set where every call succeeds and the engine reports
`engineDriver`. -/
def okEnv (engineDriver : String) : Collaborators where
  SetDefaults_KubeletConfiguration := fun c =>
    { c with HairpinMode := "promiscuous-bridge", NonMasqueradeCIDR := "10.0.0.0/8" }
  Convert := fun c => .ok
    { RuntimeRequestTimeout := c.RuntimeRequestTimeout
      HairpinMode := c.HairpinMode
      NonMasqueradeCIDR := c.NonMasqueradeCIDR
      SeccompProfileRoot := c.SeccompProfileRoot
      RuntimeCgroups := c.RuntimeCgroups }
  NewContainerRuntimeOptions :=
    { ImagePullProgressDeadline := 60
      PodSandboxImage := "pause"
      DockerExecHandlerName := "native"
      DockerDisableSharedPID := true }
  ConnectToDockerOrDie := fun _ _ _ => some ⟨0⟩
  Info := fun _ => .ok ⟨engineDriver⟩
  NewDockerService := fun _ => .ok ⟨7⟩
  Quote := plainQuote

/-! ## Shape of a run

The descriptions below restate, outside the function, the values it builds; the
run equations further down prove them equal to what the function computes. -/

/-- The settings assembled at lines 71-80. -/
def builtSettings (kubeCfg : componentconfig.KubeletConfiguration)
    (cniNetDir cniPluginDir : String) : dockershim.NetworkPluginSettings :=
  { HairpinMode := kubeCfg.HairpinMode
    NonMasqueradeCIDR := kubeCfg.NonMasqueradeCIDR
    PluginName := "cni"
    PluginConfDir := cniNetDir
    PluginBinDir := cniPluginDir
    MTU := 1460
    LegacyRuntimeHost := .noOpLegacyHostPtr none }

/-- The argument record of the call at lines 91-102. -/
def builtArgs (env : Collaborators) (kubeCfg : componentconfig.KubeletConfiguration)
    (client : libdocker.Client) (streamingConfig : Option streaming.Config)
    (cniNetDir cniPluginDir cgroupDriver rootDir : String) : dockershim.NewDockerServiceArgs :=
  { client := client
    seccompProfileRoot := kubeCfg.SeccompProfileRoot
    podSandboxImage := env.NewContainerRuntimeOptions.PodSandboxImage
    streamingConfig := streamingConfig
    pluginSettings := builtSettings kubeCfg cniNetDir cniPluginDir
    cgroupsName := kubeCfg.RuntimeCgroups
    kubeCgroupDriver := cgroupDriver
    execHandlerName := env.NewContainerRuntimeOptions.DockerExecHandlerName
    dockershimRootDir := rootDir
    disableSharedPID := env.NewContainerRuntimeOptions.DockerDisableSharedPID }

/-- The events of a run up to and including a successful `Info` query. -/
def eventsToInfo (endpoint : String) (kubeCfg : componentconfig.KubeletConfiguration)
    (client : libdocker.Client) (info : libdocker.Info) : List Event :=
  [ .glog .info "Initialize privileged runtime: docker runtime\n",
    .convert (.ok kubeCfg),
    .connectToDockerOrDie endpoint (some client),
    .info (.ok info) ]

/-- The warning line of line 87. -/
def driverWarning (env : Collaborators) (cgroupDriver : String) : Event :=
  .glog .warning (Sprintf env.Quote
    "No cgroup driver is set in Docker, use frakti configuration: %q" [cgroupDriver])

/-- What the driver check logs when it lets construction proceed. -/
def driverLog (env : Collaborators) (cgroupDriver : String) (info : libdocker.Info) :
    List Event :=
  if info.CgroupDriver = "" then [driverWarning env cgroupDriver] else []

/-- The error of line 89. -/
def mismatchError (env : Collaborators) (cgroupDriver : String) (info : libdocker.Info) :
    GoError :=
  Errorf env.Quote
    "misconfiguration: frakti cgroup driver: %q is different from docker cgroup driver: %q"
    [info.CgroupDriver, cgroupDriver]

/-- The seven ways a run can go, each with the events performed and the outcome. -/
inductive RunShape (env : Collaborators) (endpoint : String)
    (streamingConfig : Option streaming.Config)
    (cniNetDir cniPluginDir cgroupDriver rootDir : String) :
    List Event × Outcome → Prop where
  | convertError (err : GoError)
      (hConv : env.Convert (env.SetDefaults_KubeletConfiguration {}) = .error err) :
      RunShape env endpoint streamingConfig cniNetDir cniPluginDir cgroupDriver rootDir
        ([.glog .info "Initialize privileged runtime: docker runtime\n",
          .convert (.error err)], .returned none (some err))
  | connectExit (kubeCfg : componentconfig.KubeletConfiguration)
      (hConv : env.Convert (env.SetDefaults_KubeletConfiguration {}) = .ok kubeCfg)
      (hConn : env.ConnectToDockerOrDie endpoint kubeCfg.RuntimeRequestTimeout
        env.NewContainerRuntimeOptions.ImagePullProgressDeadline = none) :
      RunShape env endpoint streamingConfig cniNetDir cniPluginDir cgroupDriver rootDir
        ([.glog .info "Initialize privileged runtime: docker runtime\n",
          .convert (.ok kubeCfg), .connectToDockerOrDie endpoint none], .processExit)
  | infoError (kubeCfg : componentconfig.KubeletConfiguration) (client : libdocker.Client)
      (err : GoError)
      (hConv : env.Convert (env.SetDefaults_KubeletConfiguration {}) = .ok kubeCfg)
      (hConn : env.ConnectToDockerOrDie endpoint kubeCfg.RuntimeRequestTimeout
        env.NewContainerRuntimeOptions.ImagePullProgressDeadline = some client)
      (hInfo : env.Info client = .error err) :
      RunShape env endpoint streamingConfig cniNetDir cniPluginDir cgroupDriver rootDir
        ([.glog .info "Initialize privileged runtime: docker runtime\n",
          .convert (.ok kubeCfg), .connectToDockerOrDie endpoint (some client),
          .info (.error err)],
         .returned none
           (some (Errorf env.Quote "failed to get info from docker: %v" [err.Error])))
  | mismatch (kubeCfg : componentconfig.KubeletConfiguration) (client : libdocker.Client)
      (info : libdocker.Info)
      (hConv : env.Convert (env.SetDefaults_KubeletConfiguration {}) = .ok kubeCfg)
      (hConn : env.ConnectToDockerOrDie endpoint kubeCfg.RuntimeRequestTimeout
        env.NewContainerRuntimeOptions.ImagePullProgressDeadline = some client)
      (hInfo : env.Info client = .ok info)
      (h0 : info.CgroupDriver ≠ "") (h1 : info.CgroupDriver ≠ cgroupDriver) :
      RunShape env endpoint streamingConfig cniNetDir cniPluginDir cgroupDriver rootDir
        (eventsToInfo endpoint kubeCfg client info,
         .returned none (some (mismatchError env cgroupDriver info)))
  | serviceError (kubeCfg : componentconfig.KubeletConfiguration) (client : libdocker.Client)
      (info : libdocker.Info) (err : GoError)
      (hConv : env.Convert (env.SetDefaults_KubeletConfiguration {}) = .ok kubeCfg)
      (hConn : env.ConnectToDockerOrDie endpoint kubeCfg.RuntimeRequestTimeout
        env.NewContainerRuntimeOptions.ImagePullProgressDeadline = some client)
      (hInfo : env.Info client = .ok info)
      (hag : info.CgroupDriver = "" ∨ info.CgroupDriver = cgroupDriver)
      (hNew : env.NewDockerService
        (builtArgs env kubeCfg client streamingConfig cniNetDir cniPluginDir cgroupDriver
          rootDir) = .error err) :
      RunShape env endpoint streamingConfig cniNetDir cniPluginDir cgroupDriver rootDir
        (eventsToInfo endpoint kubeCfg client info ++ driverLog env cgroupDriver info ++
          [.newDockerService
            (builtArgs env kubeCfg client streamingConfig cniNetDir cniPluginDir cgroupDriver
              rootDir) (.error err)],
         .returned none (some err))
  | nilConfig (kubeCfg : componentconfig.KubeletConfiguration) (client : libdocker.Client)
      (info : libdocker.Info) (ds : dockershim.DockerService)
      (hCfg : streamingConfig = none)
      (hConv : env.Convert (env.SetDefaults_KubeletConfiguration {}) = .ok kubeCfg)
      (hConn : env.ConnectToDockerOrDie endpoint kubeCfg.RuntimeRequestTimeout
        env.NewContainerRuntimeOptions.ImagePullProgressDeadline = some client)
      (hInfo : env.Info client = .ok info)
      (hag : info.CgroupDriver = "" ∨ info.CgroupDriver = cgroupDriver)
      (hNew : env.NewDockerService
        (builtArgs env kubeCfg client streamingConfig cniNetDir cniPluginDir cgroupDriver
          rootDir) = .ok ds) :
      RunShape env endpoint streamingConfig cniNetDir cniPluginDir cgroupDriver rootDir
        (eventsToInfo endpoint kubeCfg client info ++ driverLog env cgroupDriver info ++
          [.newDockerService
            (builtArgs env kubeCfg client streamingConfig cniNetDir cniPluginDir cgroupDriver
              rootDir) (.ok ds),
           .startPrivilegedStreamingServer streamingConfig ds],
         .nilDereference)
  | success (sc : streaming.Config) (kubeCfg : componentconfig.KubeletConfiguration)
      (client : libdocker.Client) (info : libdocker.Info) (ds : dockershim.DockerService)
      (hCfg : streamingConfig = some sc)
      (hConv : env.Convert (env.SetDefaults_KubeletConfiguration {}) = .ok kubeCfg)
      (hConn : env.ConnectToDockerOrDie endpoint kubeCfg.RuntimeRequestTimeout
        env.NewContainerRuntimeOptions.ImagePullProgressDeadline = some client)
      (hInfo : env.Info client = .ok info)
      (hag : info.CgroupDriver = "" ∨ info.CgroupDriver = cgroupDriver)
      (hNew : env.NewDockerService
        (builtArgs env kubeCfg client streamingConfig cniNetDir cniPluginDir cgroupDriver
          rootDir) = .ok ds) :
      RunShape env endpoint streamingConfig cniNetDir cniPluginDir cgroupDriver rootDir
        (eventsToInfo endpoint kubeCfg client info ++ driverLog env cgroupDriver info ++
          [.newDockerService
            (builtArgs env kubeCfg client streamingConfig cniNetDir cniPluginDir cgroupDriver
              rootDir) (.ok ds),
           .startPrivilegedStreamingServer streamingConfig ds,
           .goListenAndServe sc.Addr ds],
         .returned (some ⟨ds⟩) none)

/-! ## Auxiliary facts -/

theorem length_eq_zero_iff_empty (s : String) : s.length = 0 ↔ s = "" := by
  constructor
  · intro h
    cases s with
    | mk d =>
      cases d with
      | nil => rfl
      | cons c t => simp [String.length] at h
  · rintro rfl
    rfl

/-- Text of the mismatch error, as the format string lays it out. -/
theorem mismatch_text (q : String → String) (a b : String) :
    Sprintf q
      "misconfiguration: frakti cgroup driver: %q is different from docker cgroup driver: %q"
      [a, b]
    = "misconfiguration: frakti cgroup driver: " ++ q a
        ++ " is different from docker cgroup driver: " ++ q b := by
  apply String.ext
  simp only [String.data_append, List.append_assoc]
  rw [← List.append_nil (q b).data]
  rfl

/-! ## Run equations -/

section RunEquations

variable (env : Collaborators) (endpoint : String) (streamingConfig : Option streaming.Config)
  (cniNetDir cniPluginDir cgroupDriver rootDir : String)

theorem run_convert_error (err : GoError)
    (hConv : env.Convert (env.SetDefaults_KubeletConfiguration {}) = .error err) :
    NewPrivilegedRuntimeService env endpoint streamingConfig cniNetDir cniPluginDir
        cgroupDriver rootDir
      = ([.glog .info "Initialize privileged runtime: docker runtime\n",
          .convert (.error err)], .returned none (some err)) := by
  unfold NewPrivilegedRuntimeService
  simp only [hConv]
  rfl

theorem run_connect_exit (kubeCfg : componentconfig.KubeletConfiguration)
    (hConv : env.Convert (env.SetDefaults_KubeletConfiguration {}) = .ok kubeCfg)
    (hConn : env.ConnectToDockerOrDie endpoint kubeCfg.RuntimeRequestTimeout
      env.NewContainerRuntimeOptions.ImagePullProgressDeadline = none) :
    NewPrivilegedRuntimeService env endpoint streamingConfig cniNetDir cniPluginDir
        cgroupDriver rootDir
      = ([.glog .info "Initialize privileged runtime: docker runtime\n",
          .convert (.ok kubeCfg), .connectToDockerOrDie endpoint none], .processExit) := by
  unfold NewPrivilegedRuntimeService
  simp only [hConv, hConn]
  rfl

theorem run_info_error (kubeCfg : componentconfig.KubeletConfiguration)
    (client : libdocker.Client) (err : GoError)
    (hConv : env.Convert (env.SetDefaults_KubeletConfiguration {}) = .ok kubeCfg)
    (hConn : env.ConnectToDockerOrDie endpoint kubeCfg.RuntimeRequestTimeout
      env.NewContainerRuntimeOptions.ImagePullProgressDeadline = some client)
    (hInfo : env.Info client = .error err) :
    NewPrivilegedRuntimeService env endpoint streamingConfig cniNetDir cniPluginDir
        cgroupDriver rootDir
      = ([.glog .info "Initialize privileged runtime: docker runtime\n",
          .convert (.ok kubeCfg), .connectToDockerOrDie endpoint (some client),
          .info (.error err)],
         .returned none
           (some (Errorf env.Quote "failed to get info from docker: %v" [err.Error]))) := by
  unfold NewPrivilegedRuntimeService
  simp only [hConv, hConn, hInfo]
  rfl

theorem run_mismatch (kubeCfg : componentconfig.KubeletConfiguration)
    (client : libdocker.Client) (info : libdocker.Info)
    (hConv : env.Convert (env.SetDefaults_KubeletConfiguration {}) = .ok kubeCfg)
    (hConn : env.ConnectToDockerOrDie endpoint kubeCfg.RuntimeRequestTimeout
      env.NewContainerRuntimeOptions.ImagePullProgressDeadline = some client)
    (hInfo : env.Info client = .ok info)
    (h0 : info.CgroupDriver ≠ "") (h1 : info.CgroupDriver ≠ cgroupDriver) :
    NewPrivilegedRuntimeService env endpoint streamingConfig cniNetDir cniPluginDir
        cgroupDriver rootDir
      = (eventsToInfo endpoint kubeCfg client info,
         .returned none (some (mismatchError env cgroupDriver info))) := by
  unfold NewPrivilegedRuntimeService
  simp only [hConv, hConn, hInfo, length_eq_zero_iff_empty, h0, h1, if_false, ne_eq,
    not_false_eq_true, if_true]
  rfl

theorem run_service_error (kubeCfg : componentconfig.KubeletConfiguration)
    (client : libdocker.Client) (info : libdocker.Info) (err : GoError)
    (hConv : env.Convert (env.SetDefaults_KubeletConfiguration {}) = .ok kubeCfg)
    (hConn : env.ConnectToDockerOrDie endpoint kubeCfg.RuntimeRequestTimeout
      env.NewContainerRuntimeOptions.ImagePullProgressDeadline = some client)
    (hInfo : env.Info client = .ok info)
    (hag : info.CgroupDriver = "" ∨ info.CgroupDriver = cgroupDriver)
    (hNew : env.NewDockerService
      (builtArgs env kubeCfg client streamingConfig cniNetDir cniPluginDir cgroupDriver rootDir)
      = .error err) :
    NewPrivilegedRuntimeService env endpoint streamingConfig cniNetDir cniPluginDir
        cgroupDriver rootDir
      = (eventsToInfo endpoint kubeCfg client info ++ driverLog env cgroupDriver info ++
          [.newDockerService
            (builtArgs env kubeCfg client streamingConfig cniNetDir cniPluginDir cgroupDriver
              rootDir) (.error err)],
         .returned none (some err)) := by
  unfold builtArgs builtSettings at hNew
  unfold NewPrivilegedRuntimeService
  by_cases h0 : info.CgroupDriver = ""
  · simp only [hConv, hConn, hInfo, length_eq_zero_iff_empty, h0, if_true, networkPluginName,
      networkPluginMTU, hNew]
    simp [eventsToInfo, driverLog, driverWarning, builtArgs, builtSettings, h0]
  · have h1 : info.CgroupDriver = cgroupDriver := hag.resolve_left h0
    have h0c : ¬ cgroupDriver = "" := h1 ▸ h0
    simp only [hConv, hConn, hInfo, length_eq_zero_iff_empty, h0, h1, h0c, if_false, ne_eq,
      not_true_eq_false, networkPluginName, networkPluginMTU, hNew]
    simp [eventsToInfo, driverLog, driverWarning, builtArgs, builtSettings, h0, h1, h0c]

theorem run_nil_config (kubeCfg : componentconfig.KubeletConfiguration)
    (client : libdocker.Client) (info : libdocker.Info) (ds : dockershim.DockerService)
    (hConv : env.Convert (env.SetDefaults_KubeletConfiguration {}) = .ok kubeCfg)
    (hConn : env.ConnectToDockerOrDie endpoint kubeCfg.RuntimeRequestTimeout
      env.NewContainerRuntimeOptions.ImagePullProgressDeadline = some client)
    (hInfo : env.Info client = .ok info)
    (hag : info.CgroupDriver = "" ∨ info.CgroupDriver = cgroupDriver)
    (hNew : env.NewDockerService
      (builtArgs env kubeCfg client none cniNetDir cniPluginDir cgroupDriver rootDir) = .ok ds) :
    NewPrivilegedRuntimeService env endpoint none cniNetDir cniPluginDir cgroupDriver rootDir
      = (eventsToInfo endpoint kubeCfg client info ++ driverLog env cgroupDriver info ++
          [.newDockerService
            (builtArgs env kubeCfg client none cniNetDir cniPluginDir cgroupDriver rootDir)
            (.ok ds),
           .startPrivilegedStreamingServer none ds],
         .nilDereference) := by
  unfold builtArgs builtSettings at hNew
  unfold NewPrivilegedRuntimeService
  by_cases h0 : info.CgroupDriver = ""
  · simp only [hConv, hConn, hInfo, length_eq_zero_iff_empty, h0, if_true, networkPluginName,
      networkPluginMTU, hNew, startPrivilegedStreamingServer]
    simp [eventsToInfo, driverLog, driverWarning, builtArgs, builtSettings, h0]
  · have h1 : info.CgroupDriver = cgroupDriver := hag.resolve_left h0
    have h0c : ¬ cgroupDriver = "" := h1 ▸ h0
    simp only [hConv, hConn, hInfo, length_eq_zero_iff_empty, h0, h1, h0c, if_false, ne_eq,
      not_true_eq_false, networkPluginName, networkPluginMTU, hNew,
      startPrivilegedStreamingServer]
    simp [eventsToInfo, driverLog, driverWarning, builtArgs, builtSettings, h0, h1, h0c]

theorem run_success (sc : streaming.Config) (kubeCfg : componentconfig.KubeletConfiguration)
    (client : libdocker.Client) (info : libdocker.Info) (ds : dockershim.DockerService)
    (hConv : env.Convert (env.SetDefaults_KubeletConfiguration {}) = .ok kubeCfg)
    (hConn : env.ConnectToDockerOrDie endpoint kubeCfg.RuntimeRequestTimeout
      env.NewContainerRuntimeOptions.ImagePullProgressDeadline = some client)
    (hInfo : env.Info client = .ok info)
    (hag : info.CgroupDriver = "" ∨ info.CgroupDriver = cgroupDriver)
    (hNew : env.NewDockerService
      (builtArgs env kubeCfg client (some sc) cniNetDir cniPluginDir cgroupDriver rootDir)
      = .ok ds) :
    NewPrivilegedRuntimeService env endpoint (some sc) cniNetDir cniPluginDir cgroupDriver
        rootDir
      = (eventsToInfo endpoint kubeCfg client info ++ driverLog env cgroupDriver info ++
          [.newDockerService
            (builtArgs env kubeCfg client (some sc) cniNetDir cniPluginDir cgroupDriver rootDir)
            (.ok ds),
           .startPrivilegedStreamingServer (some sc) ds,
           .goListenAndServe sc.Addr ds],
         .returned (some ⟨ds⟩) none) := by
  unfold builtArgs builtSettings at hNew
  unfold NewPrivilegedRuntimeService
  by_cases h0 : info.CgroupDriver = ""
  · simp only [hConv, hConn, hInfo, length_eq_zero_iff_empty, h0, if_true, networkPluginName,
      networkPluginMTU, hNew, startPrivilegedStreamingServer]
    simp [eventsToInfo, driverLog, driverWarning, builtArgs, builtSettings, h0]
  · have h1 : info.CgroupDriver = cgroupDriver := hag.resolve_left h0
    have h0c : ¬ cgroupDriver = "" := h1 ▸ h0
    simp only [hConv, hConn, hInfo, length_eq_zero_iff_empty, h0, h1, h0c, if_false, ne_eq,
      not_true_eq_false, networkPluginName, networkPluginMTU, hNew,
      startPrivilegedStreamingServer]
    simp [eventsToInfo, driverLog, driverWarning, builtArgs, builtSettings, h0, h1, h0c]

/-- Every run has one of the seven shapes. -/
theorem run_shape :
    RunShape env endpoint streamingConfig cniNetDir cniPluginDir cgroupDriver rootDir
      (NewPrivilegedRuntimeService env endpoint streamingConfig cniNetDir cniPluginDir
        cgroupDriver rootDir) := by
  rcases hConv : env.Convert (env.SetDefaults_KubeletConfiguration {}) with err | kubeCfg
  · rw [run_convert_error env endpoint streamingConfig cniNetDir cniPluginDir cgroupDriver
      rootDir err hConv]
    exact .convertError err hConv
  rcases hConn : env.ConnectToDockerOrDie endpoint kubeCfg.RuntimeRequestTimeout
      env.NewContainerRuntimeOptions.ImagePullProgressDeadline with _ | client
  · rw [run_connect_exit env endpoint streamingConfig cniNetDir cniPluginDir cgroupDriver
      rootDir kubeCfg hConv hConn]
    exact .connectExit kubeCfg hConv hConn
  rcases hInfo : env.Info client with err | info
  · rw [run_info_error env endpoint streamingConfig cniNetDir cniPluginDir cgroupDriver
      rootDir kubeCfg client err hConv hConn hInfo]
    exact .infoError kubeCfg client err hConv hConn hInfo
  by_cases hag : info.CgroupDriver = "" ∨ info.CgroupDriver = cgroupDriver
  · rcases hNew : env.NewDockerService
      (builtArgs env kubeCfg client streamingConfig cniNetDir cniPluginDir cgroupDriver
        rootDir) with err | ds
    · rw [run_service_error env endpoint streamingConfig cniNetDir cniPluginDir cgroupDriver
        rootDir kubeCfg client info err hConv hConn hInfo hag hNew]
      exact .serviceError kubeCfg client info err hConv hConn hInfo hag hNew
    · cases streamingConfig with
      | none =>
        rw [run_nil_config env endpoint cniNetDir cniPluginDir cgroupDriver rootDir kubeCfg
          client info ds hConv hConn hInfo hag hNew]
        exact .nilConfig kubeCfg client info ds rfl hConv hConn hInfo hag hNew
      | some sc =>
        rw [run_success env endpoint cniNetDir cniPluginDir cgroupDriver rootDir sc kubeCfg
          client info ds hConv hConn hInfo hag hNew]
        exact .success sc kubeCfg client info ds rfl hConv hConn hInfo hag hNew
  · have h0 : info.CgroupDriver ≠ "" := fun h => hag (Or.inl h)
    have h1 : info.CgroupDriver ≠ cgroupDriver := fun h => hag (Or.inr h)
    rw [run_mismatch env endpoint streamingConfig cniNetDir cniPluginDir cgroupDriver rootDir
      kubeCfg client info hConv hConn hInfo h0 h1]
    exact .mismatch kubeCfg client info hConv hConn hInfo h0 h1

end RunEquations

/-! ## Facts about the observations -/

theorem warningsOf_append (a b : List Event) :
    warningsOf (a ++ b) = warningsOf a ++ warningsOf b := by
  induction a with
  | nil => rfl
  | cons e t ih =>
    cases e with
    | glog sev msg => cases sev <;> simp [warningsOf, ih]
    | _ => simp [warningsOf, ih]

theorem newDockerServiceCalls_append (a b : List Event) :
    newDockerServiceCalls (a ++ b) = newDockerServiceCalls a ++ newDockerServiceCalls b := by
  induction a with
  | nil => rfl
  | cons e t ih => cases e <;> simp [newDockerServiceCalls, ih]

theorem streamingStarts_append (a b : List Event) :
    streamingStarts (a ++ b) = streamingStarts a ++ streamingStarts b := by
  induction a with
  | nil => rfl
  | cons e t ih => cases e <;> simp [streamingStarts, ih]

theorem listenersOf_append (a b : List Event) :
    listenersOf (a ++ b) = listenersOf a ++ listenersOf b := by
  induction a with
  | nil => rfl
  | cons e t ih => cases e <;> simp [listenersOf, ih]

theorem driverLog_observations (env : Collaborators) (cgroupDriver : String)
    (info : libdocker.Info) :
    newDockerServiceCalls (driverLog env cgroupDriver info) = [] ∧
    streamingStarts (driverLog env cgroupDriver info) = [] ∧
    listenersOf (driverLog env cgroupDriver info) = [] := by
  unfold driverLog driverWarning
  split <;> simp [newDockerServiceCalls, streamingStarts, listenersOf]

theorem eventsToInfo_observations (endpoint : String)
    (kubeCfg : componentconfig.KubeletConfiguration) (client : libdocker.Client)
    (info : libdocker.Info) :
    warningsOf (eventsToInfo endpoint kubeCfg client info) = [] ∧
    newDockerServiceCalls (eventsToInfo endpoint kubeCfg client info) = [] ∧
    streamingStarts (eventsToInfo endpoint kubeCfg client info) = [] ∧
    listenersOf (eventsToInfo endpoint kubeCfg client info) = [] := by
  simp [eventsToInfo, warningsOf, newDockerServiceCalls, streamingStarts, listenersOf]

/-! ## Construction and the cgroup driver -/

/-- C2: when the engine reports a non-empty driver different from `cgroupDriver`,
construction returns no facade and an error whose text starts with
`misconfiguration:` and contains both the quoted `cgroupDriver` and the quoted
engine driver; no streaming server is started. -/
theorem mismatch_error_names_both_drivers (env : Collaborators) (endpoint : String)
    (streamingConfig : Option streaming.Config)
    (cniNetDir cniPluginDir cgroupDriver rootDir engineDriver : String)
    (kubeCfg : componentconfig.KubeletConfiguration) (client : libdocker.Client)
    (hConv : env.Convert (env.SetDefaults_KubeletConfiguration {}) = .ok kubeCfg)
    (hConn : env.ConnectToDockerOrDie endpoint kubeCfg.RuntimeRequestTimeout
      env.NewContainerRuntimeOptions.ImagePullProgressDeadline = some client)
    (hInfo : env.Info client = .ok ⟨engineDriver⟩)
    (h0 : engineDriver ≠ "") (h1 : engineDriver ≠ cgroupDriver) :
    ∃ msg : String,
      (NewPrivilegedRuntimeService env endpoint streamingConfig cniNetDir cniPluginDir
        cgroupDriver rootDir).2 = .returned none (some ⟨msg⟩) ∧
      (∃ rest : String, msg = "misconfiguration: " ++ rest) ∧
      ContainsText msg (env.Quote cgroupDriver) ∧
      ContainsText msg (env.Quote engineDriver) ∧
      streamingStarts (NewPrivilegedRuntimeService env endpoint streamingConfig cniNetDir
        cniPluginDir cgroupDriver rootDir).1 = [] ∧
      listenersOf (NewPrivilegedRuntimeService env endpoint streamingConfig cniNetDir
        cniPluginDir cgroupDriver rootDir).1 = [] := by
  rw [run_mismatch env endpoint streamingConfig cniNetDir cniPluginDir cgroupDriver rootDir
    kubeCfg client ⟨engineDriver⟩ hConv hConn hInfo h0 h1]
  refine ⟨_, rfl, ?_, ?_, ?_, (eventsToInfo_observations _ _ _ _).2.2.1,
    (eventsToInfo_observations _ _ _ _).2.2.2⟩
  · rw [mismatch_text]
    exact ⟨"frakti cgroup driver: " ++ env.Quote engineDriver
      ++ " is different from docker cgroup driver: " ++ env.Quote cgroupDriver, by
        simp only [String.append_assoc]; rfl⟩
  · rw [mismatch_text]
    exact ⟨"misconfiguration: frakti cgroup driver: " ++ env.Quote engineDriver
      ++ " is different from docker cgroup driver: ", "", by simp⟩
  · rw [mismatch_text]
    exact ⟨"misconfiguration: frakti cgroup driver: ",
      " is different from docker cgroup driver: " ++ env.Quote cgroupDriver, by
        simp [String.append_assoc]⟩

/-- C3: in every run `startPrivilegedStreamingServer` is called at most once, and
when it is called the event right before it is a call of
`dockershim.NewDockerService` that returned the very service passed as handler;
in a run that records a conversion error, an Info error, a driver mismatch or a
`NewDockerService` error, it is never called, no listener is spawned, and the
result is no facade with an error. -/
theorem streaming_server_starts_only_after_service (env : Collaborators) (endpoint : String)
    (streamingConfig : Option streaming.Config)
    (cniNetDir cniPluginDir cgroupDriver rootDir : String) :
    (streamingStarts (NewPrivilegedRuntimeService env endpoint streamingConfig cniNetDir
        cniPluginDir cgroupDriver rootDir).1 = [] ∨
      ∃ (pre : List Event) (args : dockershim.NewDockerServiceArgs)
        (ds : dockershim.DockerService) (post : List Event),
        (NewPrivilegedRuntimeService env endpoint streamingConfig cniNetDir cniPluginDir
            cgroupDriver rootDir).1
          = pre ++ Event.newDockerService args (.ok ds)
              :: Event.startPrivilegedStreamingServer streamingConfig ds :: post ∧
        env.NewDockerService args = .ok ds ∧
        streamingStarts pre = [] ∧ streamingStarts post = []) ∧
    ((∃ e ∈ (NewPrivilegedRuntimeService env endpoint streamingConfig cniNetDir cniPluginDir
          cgroupDriver rootDir).1, recordsFailure cgroupDriver e) →
      (∃ err, (NewPrivilegedRuntimeService env endpoint streamingConfig cniNetDir cniPluginDir
          cgroupDriver rootDir).2 = .returned none (some err)) ∧
      streamingStarts (NewPrivilegedRuntimeService env endpoint streamingConfig cniNetDir
          cniPluginDir cgroupDriver rootDir).1 = [] ∧
      listenersOf (NewPrivilegedRuntimeService env endpoint streamingConfig cniNetDir
          cniPluginDir cgroupDriver rootDir).1 = []) := by
  have hs := run_shape env endpoint streamingConfig cniNetDir cniPluginDir cgroupDriver rootDir
  generalize NewPrivilegedRuntimeService env endpoint streamingConfig cniNetDir cniPluginDir
    cgroupDriver rootDir = r at hs
  cases hs with
  | convertError err hConv => simp [streamingStarts, listenersOf]
  | connectExit kubeCfg hConv hConn => simp [streamingStarts, listenersOf, recordsFailure]
  | infoError kubeCfg client err hConv hConn hInfo => simp [streamingStarts, listenersOf]
  | mismatch kubeCfg client info hConv hConn hInfo h0 h1 =>
    simp [(eventsToInfo_observations endpoint kubeCfg client info).2.2.1,
      (eventsToInfo_observations endpoint kubeCfg client info).2.2.2]
  | serviceError kubeCfg client info err hConv hConn hInfo hag hNew =>
    simp [streamingStarts_append, listenersOf_append, streamingStarts, listenersOf,
      (eventsToInfo_observations endpoint kubeCfg client info).2.2.1,
      (eventsToInfo_observations endpoint kubeCfg client info).2.2.2,
      (driverLog_observations env cgroupDriver info).2.1,
      (driverLog_observations env cgroupDriver info).2.2]
  | nilConfig kubeCfg client info ds hCfg hConv hConn hInfo hag hNew =>
    refine ⟨Or.inr ⟨eventsToInfo endpoint kubeCfg client info ++ driverLog env cgroupDriver info,
      _, ds, [], rfl, hNew, ?_, rfl⟩, ?_⟩
    · simp [streamingStarts_append,
        (eventsToInfo_observations endpoint kubeCfg client info).2.2.1,
        (driverLog_observations env cgroupDriver info).2.1]
    · rintro ⟨e, he, hf⟩
      exfalso
      simp only [List.mem_append, List.mem_cons, List.mem_singleton, eventsToInfo, driverLog,
        driverWarning, List.not_mem_nil, or_false] at he
      rcases he with ((he | he | he | he) | he) | he | he
      · subst he; exact hf
      · subst he; exact hf
      · subst he; exact hf
      · subst he
        rcases hag with h | h
        · exact hf.1 h
        · exact hf.2 h
      · split at he
        · simp only [List.mem_singleton] at he
          subst he; exact hf
        · simp at he
      · subst he; exact hf
      · subst he; exact hf
  | success sc kubeCfg client info ds hCfg hConv hConn hInfo hag hNew =>
    refine ⟨Or.inr ⟨eventsToInfo endpoint kubeCfg client info ++ driverLog env cgroupDriver info,
      _, ds, [.goListenAndServe sc.Addr ds], rfl, hNew, ?_, rfl⟩, ?_⟩
    · simp [streamingStarts_append,
        (eventsToInfo_observations endpoint kubeCfg client info).2.2.1,
        (driverLog_observations env cgroupDriver info).2.1]
    · rintro ⟨e, he, hf⟩
      exfalso
      simp only [List.mem_append, List.mem_cons, List.mem_singleton, eventsToInfo, driverLog,
        driverWarning, List.not_mem_nil, or_false] at he
      rcases he with ((he | he | he | he) | he) | he | he | he
      · subst he; exact hf
      · subst he; exact hf
      · subst he; exact hf
      · subst he
        rcases hag with h | h
        · exact hf.1 h
        · exact hf.2 h
      · split at he
        · simp only [List.mem_singleton] at he
          subst he; exact hf
        · simp at he
      · subst he; exact hf
      · subst he; exact hf
      · subst he; exact hf

/-- C9: when conversion and the Info query succeed, the warning lines of the run are
exactly the one cgroup-driver warning if the engine reports an empty driver and none
otherwise; with an empty engine driver construction goes on to call
`dockershim.NewDockerService` once, passing `cgroupDriver` as driver; when the engine
reports a driver (a non-empty one) equal to `cgroupDriver`, no warning is logged. -/
theorem warning_exactly_when_engine_driver_empty (env : Collaborators) (endpoint : String)
    (streamingConfig : Option streaming.Config)
    (cniNetDir cniPluginDir cgroupDriver rootDir engineDriver : String)
    (kubeCfg : componentconfig.KubeletConfiguration) (client : libdocker.Client)
    (hConv : env.Convert (env.SetDefaults_KubeletConfiguration {}) = .ok kubeCfg)
    (hConn : env.ConnectToDockerOrDie endpoint kubeCfg.RuntimeRequestTimeout
      env.NewContainerRuntimeOptions.ImagePullProgressDeadline = some client)
    (hInfo : env.Info client = .ok ⟨engineDriver⟩) :
    (warningsOf (NewPrivilegedRuntimeService env endpoint streamingConfig cniNetDir
        cniPluginDir cgroupDriver rootDir).1
      = if engineDriver = "" then
          [Sprintf env.Quote "No cgroup driver is set in Docker, use frakti configuration: %q"
            [cgroupDriver]]
        else []) ∧
    (engineDriver = "" ∨ engineDriver = cgroupDriver →
      ∃ args, newDockerServiceCalls (NewPrivilegedRuntimeService env endpoint streamingConfig
          cniNetDir cniPluginDir cgroupDriver rootDir).1 = [args] ∧
        args.kubeCgroupDriver = cgroupDriver) ∧
    (engineDriver ≠ "" → engineDriver = cgroupDriver →
      warningsOf (NewPrivilegedRuntimeService env endpoint streamingConfig cniNetDir
        cniPluginDir cgroupDriver rootDir).1 = []) := by
  have hobs := eventsToInfo_observations endpoint kubeCfg client ⟨engineDriver⟩
  have hw : warningsOf (driverLog env cgroupDriver ⟨engineDriver⟩)
      = if engineDriver = "" then
          [Sprintf env.Quote "No cgroup driver is set in Docker, use frakti configuration: %q"
            [cgroupDriver]]
        else [] := by
    unfold driverLog driverWarning
    split <;> simp [warningsOf]
  have hd := driverLog_observations env cgroupDriver ⟨engineDriver⟩
  by_cases hag : engineDriver = "" ∨ engineDriver = cgroupDriver
  · rcases hNew : env.NewDockerService
      (builtArgs env kubeCfg client streamingConfig cniNetDir cniPluginDir cgroupDriver
        rootDir) with err | ds
    · rw [run_service_error env endpoint streamingConfig cniNetDir cniPluginDir cgroupDriver
        rootDir kubeCfg client ⟨engineDriver⟩ err hConv hConn hInfo hag hNew]
      simp only [warningsOf_append, newDockerServiceCalls_append, hobs.1, hobs.2.1, hw, hd.1]
      refine ⟨by simp [warningsOf], fun _ => by simp [newDockerServiceCalls, builtArgs],
        fun h0 _ => by simp [warningsOf, h0]⟩
    · cases streamingConfig with
      | none =>
        rw [run_nil_config env endpoint cniNetDir cniPluginDir cgroupDriver rootDir kubeCfg
          client ⟨engineDriver⟩ ds hConv hConn hInfo hag hNew]
        simp only [warningsOf_append, newDockerServiceCalls_append, hobs.1, hobs.2.1, hw, hd.1]
        refine ⟨by simp [warningsOf], fun _ => by simp [newDockerServiceCalls, builtArgs],
          fun h0 _ => by simp [warningsOf, h0]⟩
      | some sc =>
        rw [run_success env endpoint cniNetDir cniPluginDir cgroupDriver rootDir sc kubeCfg
          client ⟨engineDriver⟩ ds hConv hConn hInfo hag hNew]
        simp only [warningsOf_append, newDockerServiceCalls_append, hobs.1, hobs.2.1, hw, hd.1]
        refine ⟨by simp [warningsOf], fun _ => by simp [newDockerServiceCalls, builtArgs],
          fun h0 _ => by simp [warningsOf, h0]⟩
  · have h0 : engineDriver ≠ "" := fun h => hag (Or.inl h)
    have h1 : engineDriver ≠ cgroupDriver := fun h => hag (Or.inr h)
    rw [run_mismatch env endpoint streamingConfig cniNetDir cniPluginDir cgroupDriver rootDir
      kubeCfg client ⟨engineDriver⟩ hConv hConn hInfo h0 h1]
    simp [hobs.1, h0, h1]

/-- C10 (evaluation of the code): with `cgroupDriver = "cgroupfs"` and an engine that
reports `"systemd"`, the mismatch error puts the engine's value after
`frakti cgroup driver:` and the adapter's value after `docker cgroup driver:`. -/
theorem mismatch_error_swaps_the_two_labels :
    (NewPrivilegedRuntimeService (okEnv "systemd") "unix:///var/run/docker.sock"
        (some ⟨"0.0.0.0:11250"⟩) "/etc/cni/net.d" "/opt/cni/bin" "cgroupfs"
        "/var/lib/frakti/privileged").2
      = .returned none (some ⟨"misconfiguration: frakti cgroup driver: \"systemd\" is different from docker cgroup driver: \"cgroupfs\""⟩) := by
  rfl

/-! ## Network plugin settings -/

/-- C6: every `NetworkPluginSettings` handed to `dockershim.NewDockerService` carries,
as legacy host, the interface value of dynamic type `*noOpLegacyHost` (holding the
nil pointer), never the nil interface; and a run that returns a facade made exactly
one such call, the one that returned the facade's service. -/
theorem legacy_host_is_the_noop_stub (env : Collaborators) (endpoint : String)
    (streamingConfig : Option streaming.Config)
    (cniNetDir cniPluginDir cgroupDriver rootDir : String) :
    (∀ args ∈ newDockerServiceCalls (NewPrivilegedRuntimeService env endpoint streamingConfig
        cniNetDir cniPluginDir cgroupDriver rootDir).1,
      args.pluginSettings.LegacyRuntimeHost = .noOpLegacyHostPtr none ∧
      args.pluginSettings.LegacyRuntimeHost ≠ .nilInterface) ∧
    (∀ facade, (NewPrivilegedRuntimeService env endpoint streamingConfig cniNetDir
        cniPluginDir cgroupDriver rootDir).2 = .returned (some facade) none →
      ∃ args, newDockerServiceCalls (NewPrivilegedRuntimeService env endpoint streamingConfig
          cniNetDir cniPluginDir cgroupDriver rootDir).1 = [args] ∧
        env.NewDockerService args = .ok facade.DockerService ∧
        args.pluginSettings.LegacyRuntimeHost = .noOpLegacyHostPtr none) := by
  have hs := run_shape env endpoint streamingConfig cniNetDir cniPluginDir cgroupDriver rootDir
  generalize NewPrivilegedRuntimeService env endpoint streamingConfig cniNetDir cniPluginDir
    cgroupDriver rootDir = r at hs
  cases hs with
  | convertError err hConv => simp [newDockerServiceCalls]
  | connectExit kubeCfg hConv hConn => simp [newDockerServiceCalls]
  | infoError kubeCfg client err hConv hConn hInfo => simp [newDockerServiceCalls]
  | mismatch kubeCfg client info hConv hConn hInfo h0 h1 =>
    simp [(eventsToInfo_observations endpoint kubeCfg client info).2.1]
  | serviceError kubeCfg client info err hConv hConn hInfo hag hNew =>
    simp [newDockerServiceCalls_append, newDockerServiceCalls,
      (eventsToInfo_observations endpoint kubeCfg client info).2.1,
      (driverLog_observations env cgroupDriver info).1, builtArgs, builtSettings]
  | nilConfig kubeCfg client info ds hCfg hConv hConn hInfo hag hNew =>
    simp [newDockerServiceCalls_append, newDockerServiceCalls,
      (eventsToInfo_observations endpoint kubeCfg client info).2.1,
      (driverLog_observations env cgroupDriver info).1, builtArgs, builtSettings]
  | success sc kubeCfg client info ds hCfg hConv hConn hInfo hag hNew =>
    have hcalls : newDockerServiceCalls
        (eventsToInfo endpoint kubeCfg client info ++ driverLog env cgroupDriver info ++
          [.newDockerService
            (builtArgs env kubeCfg client streamingConfig cniNetDir cniPluginDir cgroupDriver
              rootDir) (.ok ds),
           .startPrivilegedStreamingServer streamingConfig ds,
           .goListenAndServe sc.Addr ds])
        = [builtArgs env kubeCfg client streamingConfig cniNetDir cniPluginDir cgroupDriver
            rootDir] := by
      simp [newDockerServiceCalls_append, newDockerServiceCalls,
        (eventsToInfo_observations endpoint kubeCfg client info).2.1,
        (driverLog_observations env cgroupDriver info).1]
    simp only [hcalls, List.mem_singleton, forall_eq]
    refine ⟨by simp [builtArgs, builtSettings], ?_⟩
    intro facade hf
    simp only [Outcome.returned.injEq, Option.some.injEq, and_true] at hf
    subst hf
    exact ⟨_, rfl, hNew, by simp [builtArgs, builtSettings]⟩

/-- C8: every `NetworkPluginSettings` handed to `dockershim.NewDockerService` has plugin
name `cni`, MTU 1460, the caller's two CNI directories, and the hairpin mode and
non-masquerade CIDR of the defaulted, converted configuration; and the settings of
two runs that differ only in endpoint, streaming configuration, cgroup driver and
root directory are equal. -/
theorem plugin_settings_fields (env : Collaborators) (endpoint : String)
    (streamingConfig : Option streaming.Config)
    (cniNetDir cniPluginDir cgroupDriver rootDir : String) :
    (∀ args ∈ newDockerServiceCalls (NewPrivilegedRuntimeService env endpoint streamingConfig
        cniNetDir cniPluginDir cgroupDriver rootDir).1,
      ∃ kubeCfg, env.Convert (env.SetDefaults_KubeletConfiguration {}) = .ok kubeCfg ∧
        args.pluginSettings.PluginName = "cni" ∧
        args.pluginSettings.MTU = 1460 ∧
        args.pluginSettings.PluginConfDir = cniNetDir ∧
        args.pluginSettings.PluginBinDir = cniPluginDir ∧
        args.pluginSettings.HairpinMode = kubeCfg.HairpinMode ∧
        args.pluginSettings.NonMasqueradeCIDR = kubeCfg.NonMasqueradeCIDR) ∧
    (∀ (endpoint2 : String) (streamingConfig2 : Option streaming.Config)
        (cgroupDriver2 rootDir2 : String),
      ∀ args ∈ newDockerServiceCalls (NewPrivilegedRuntimeService env endpoint streamingConfig
          cniNetDir cniPluginDir cgroupDriver rootDir).1,
      ∀ args2 ∈ newDockerServiceCalls (NewPrivilegedRuntimeService env endpoint2
          streamingConfig2 cniNetDir cniPluginDir cgroupDriver2 rootDir2).1,
      args.pluginSettings = args2.pluginSettings) := by
  have key : ∀ (endpoint : String) (streamingConfig : Option streaming.Config)
      (cgroupDriver rootDir : String),
      ∀ args ∈ newDockerServiceCalls (NewPrivilegedRuntimeService env endpoint streamingConfig
        cniNetDir cniPluginDir cgroupDriver rootDir).1,
      ∃ kubeCfg, env.Convert (env.SetDefaults_KubeletConfiguration {}) = .ok kubeCfg ∧
        args.pluginSettings = builtSettings kubeCfg cniNetDir cniPluginDir := by
    intro endpoint streamingConfig cgroupDriver rootDir
    have hs := run_shape env endpoint streamingConfig cniNetDir cniPluginDir cgroupDriver
      rootDir
    generalize NewPrivilegedRuntimeService env endpoint streamingConfig cniNetDir cniPluginDir
      cgroupDriver rootDir = r at hs
    cases hs with
    | convertError err hConv => simp [newDockerServiceCalls]
    | connectExit kubeCfg hConv hConn => simp [newDockerServiceCalls]
    | infoError kubeCfg client err hConv hConn hInfo => simp [newDockerServiceCalls]
    | mismatch kubeCfg client info hConv hConn hInfo h0 h1 =>
      simp [(eventsToInfo_observations endpoint kubeCfg client info).2.1]
    | serviceError kubeCfg client info err hConv hConn hInfo hag hNew =>
      simp [newDockerServiceCalls_append, newDockerServiceCalls,
        (eventsToInfo_observations endpoint kubeCfg client info).2.1,
        (driverLog_observations env cgroupDriver info).1, builtArgs, hConv]
    | nilConfig kubeCfg client info ds hCfg hConv hConn hInfo hag hNew =>
      simp [newDockerServiceCalls_append, newDockerServiceCalls,
        (eventsToInfo_observations endpoint kubeCfg client info).2.1,
        (driverLog_observations env cgroupDriver info).1, builtArgs, hConv]
    | success sc kubeCfg client info ds hCfg hConv hConn hInfo hag hNew =>
      simp [newDockerServiceCalls_append, newDockerServiceCalls,
        (eventsToInfo_observations endpoint kubeCfg client info).2.1,
        (driverLog_observations env cgroupDriver info).1, builtArgs, hConv]
  constructor
  · intro args hargs
    obtain ⟨kubeCfg, hConv, hset⟩ := key endpoint streamingConfig cgroupDriver rootDir args hargs
    exact ⟨kubeCfg, hConv, by simp [hset, builtSettings]⟩
  · intro endpoint2 streamingConfig2 cgroupDriver2 rootDir2 args hargs args2 hargs2
    obtain ⟨kubeCfg, hConv, hset⟩ := key endpoint streamingConfig cgroupDriver rootDir args hargs
    obtain ⟨kubeCfg2, hConv2, hset2⟩ :=
      key endpoint2 streamingConfig2 cgroupDriver2 rootDir2 args2 hargs2
    rw [hConv] at hConv2
    cases hConv2
    rw [hset, hset2]

/-! ## The no-op legacy host and the facade's name -/

/-- C4 (evaluation of the code): for every receiver, namespace and name,
`GetPodByName` answers the nil pod together with the flag `true`. -/
theorem noOp_GetPodByName_answers_nil_and_true (n : Option noOpLegacyHost)
    (namespace_ name : String) :
    noOpLegacyHost.GetPodByName n namespace_ name = (none, true) :=
  rfl

/-- C5: for every receiver, the nil pointer included, `SupportsLegacyFeatures` is
false and `GetKubeClient` and `GetRuntime` answer nil; the answers are the same for
any two receivers. -/
theorem noOp_host_answers_empty (n m : Option noOpLegacyHost) :
    noOpLegacyHost.SupportsLegacyFeatures n = false ∧
    noOpLegacyHost.GetKubeClient n = none ∧
    noOpLegacyHost.GetRuntime n = none ∧
    noOpLegacyHost.SupportsLegacyFeatures none = false ∧
    noOpLegacyHost.GetKubeClient none = none ∧
    noOpLegacyHost.GetRuntime none = none ∧
    noOpLegacyHost.SupportsLegacyFeatures n = noOpLegacyHost.SupportsLegacyFeatures m ∧
    noOpLegacyHost.GetKubeClient n = noOpLegacyHost.GetKubeClient m ∧
    noOpLegacyHost.GetRuntime n = noOpLegacyHost.GetRuntime m :=
  ⟨rfl, rfl, rfl, rfl, rfl, rfl, rfl, rfl, rfl⟩

/-- C7: for every facade (and every receiver pointer), `ServiceName` answers the
constant `PrivilegedRuntimeName`, the same for any two facades and for each of any
number of calls. -/
theorem serviceName_is_the_constant (PrivilegedRuntimeName : String)
    (p q : Option PrivilegedRuntime) (calls : Nat) :
    PrivilegedRuntime.ServiceName PrivilegedRuntimeName p = PrivilegedRuntimeName ∧
    PrivilegedRuntime.ServiceName PrivilegedRuntimeName p
      = PrivilegedRuntime.ServiceName PrivilegedRuntimeName q ∧
    (List.replicate calls p).map (PrivilegedRuntime.ServiceName PrivilegedRuntimeName)
      = List.replicate calls PrivilegedRuntimeName := by
  refine ⟨rfl, rfl, ?_⟩
  simp [PrivilegedRuntime.ServiceName]

/-! ## The theorems at concrete runs -/

/-- C2 at a concrete run: adapter driver `cgroupfs`, engine driver `systemd`. -/
theorem mismatch_error_names_both_drivers_witness :
    "systemd" ≠ "" ∧ "systemd" ≠ "cgroupfs" ∧
    ∃ msg : String,
      (NewPrivilegedRuntimeService (okEnv "systemd") "unix:///var/run/docker.sock"
        (some ⟨"0.0.0.0:11250"⟩) "/etc/cni/net.d" "/opt/cni/bin" "cgroupfs"
        "/var/lib/frakti/privileged").2 = .returned none (some ⟨msg⟩) ∧
      (∃ rest : String, msg = "misconfiguration: " ++ rest) ∧
      ContainsText msg "\"cgroupfs\"" ∧
      ContainsText msg "\"systemd\"" ∧
      streamingStarts (NewPrivilegedRuntimeService (okEnv "systemd")
        "unix:///var/run/docker.sock" (some ⟨"0.0.0.0:11250"⟩) "/etc/cni/net.d" "/opt/cni/bin"
        "cgroupfs" "/var/lib/frakti/privileged").1 = [] ∧
      listenersOf (NewPrivilegedRuntimeService (okEnv "systemd")
        "unix:///var/run/docker.sock" (some ⟨"0.0.0.0:11250"⟩) "/etc/cni/net.d" "/opt/cni/bin"
        "cgroupfs" "/var/lib/frakti/privileged").1 = [] :=
  ⟨by decide, by decide, mismatch_error_names_both_drivers (okEnv "systemd")
    "unix:///var/run/docker.sock" (some ⟨"0.0.0.0:11250"⟩) "/etc/cni/net.d" "/opt/cni/bin"
    "cgroupfs" "/var/lib/frakti/privileged" "systemd" sampleKubeCfg ⟨0⟩ rfl rfl rfl
    (by decide) (by decide)⟩

/-- C9 at a concrete run: the engine reports no driver, the adapter uses `cgroupfs`. -/
theorem warning_exactly_when_engine_driver_empty_witness :
    (okEnv "").Info ⟨0⟩ = .ok ⟨""⟩ ∧
    warningsOf (NewPrivilegedRuntimeService (okEnv "") "unix:///var/run/docker.sock"
      (some ⟨"0.0.0.0:11250"⟩) "/etc/cni/net.d" "/opt/cni/bin" "cgroupfs"
      "/var/lib/frakti/privileged").1
      = ["No cgroup driver is set in Docker, use frakti configuration: \"cgroupfs\""] ∧
    ∃ args, newDockerServiceCalls (NewPrivilegedRuntimeService (okEnv "")
        "unix:///var/run/docker.sock" (some ⟨"0.0.0.0:11250"⟩) "/etc/cni/net.d" "/opt/cni/bin"
        "cgroupfs" "/var/lib/frakti/privileged").1 = [args] ∧
      args.kubeCgroupDriver = "cgroupfs" :=
  ⟨rfl,
    (warning_exactly_when_engine_driver_empty (okEnv "") "unix:///var/run/docker.sock"
      (some ⟨"0.0.0.0:11250"⟩) "/etc/cni/net.d" "/opt/cni/bin" "cgroupfs"
      "/var/lib/frakti/privileged" "" sampleKubeCfg ⟨0⟩ rfl rfl rfl).1.trans rfl,
    (warning_exactly_when_engine_driver_empty (okEnv "") "unix:///var/run/docker.sock"
      (some ⟨"0.0.0.0:11250"⟩) "/etc/cni/net.d" "/opt/cni/bin" "cgroupfs"
      "/var/lib/frakti/privileged" "" sampleKubeCfg ⟨0⟩ rfl rfl rfl).2.1 (Or.inl rfl)⟩

/-- C3 at two concrete runs: one that succeeds and one that fails on a driver mismatch. -/
theorem streaming_server_starts_only_after_service_witness :
    (∃ (pre : List Event) (args : dockershim.NewDockerServiceArgs)
        (ds : dockershim.DockerService) (post : List Event),
        (NewPrivilegedRuntimeService (okEnv "cgroupfs") "unix:///var/run/docker.sock"
          (some ⟨"0.0.0.0:11250"⟩) "/etc/cni/net.d" "/opt/cni/bin" "cgroupfs"
          "/var/lib/frakti/privileged").1
          = pre ++ Event.newDockerService args (.ok ds)
              :: Event.startPrivilegedStreamingServer (some ⟨"0.0.0.0:11250"⟩) ds :: post ∧
        (okEnv "cgroupfs").NewDockerService args = .ok ds ∧
        streamingStarts pre = [] ∧ streamingStarts post = []) ∧
    ((∃ err, (NewPrivilegedRuntimeService (okEnv "systemd") "unix:///var/run/docker.sock"
        (some ⟨"0.0.0.0:11250"⟩) "/etc/cni/net.d" "/opt/cni/bin" "cgroupfs"
        "/var/lib/frakti/privileged").2 = .returned none (some err)) ∧
      streamingStarts (NewPrivilegedRuntimeService (okEnv "systemd")
        "unix:///var/run/docker.sock" (some ⟨"0.0.0.0:11250"⟩) "/etc/cni/net.d" "/opt/cni/bin"
        "cgroupfs" "/var/lib/frakti/privileged").1 = [] ∧
      listenersOf (NewPrivilegedRuntimeService (okEnv "systemd")
        "unix:///var/run/docker.sock" (some ⟨"0.0.0.0:11250"⟩) "/etc/cni/net.d" "/opt/cni/bin"
        "cgroupfs" "/var/lib/frakti/privileged").1 = []) :=
  ⟨(streaming_server_starts_only_after_service (okEnv "cgroupfs")
      "unix:///var/run/docker.sock" (some ⟨"0.0.0.0:11250"⟩) "/etc/cni/net.d" "/opt/cni/bin"
      "cgroupfs" "/var/lib/frakti/privileged").1.resolve_left (by decide),
    (streaming_server_starts_only_after_service (okEnv "systemd")
      "unix:///var/run/docker.sock" (some ⟨"0.0.0.0:11250"⟩) "/etc/cni/net.d" "/opt/cni/bin"
      "cgroupfs" "/var/lib/frakti/privileged").2
      ⟨.info (.ok ⟨"systemd"⟩),
        List.Mem.tail _ (List.Mem.tail _ (List.Mem.tail _ (List.Mem.head _))),
        ⟨by decide, by decide⟩⟩⟩

/-- C6 at a concrete successful run. -/
theorem legacy_host_is_the_noop_stub_witness :
    ∃ args, newDockerServiceCalls (NewPrivilegedRuntimeService (okEnv "cgroupfs")
        "unix:///var/run/docker.sock" (some ⟨"0.0.0.0:11250"⟩) "/etc/cni/net.d" "/opt/cni/bin"
        "cgroupfs" "/var/lib/frakti/privileged").1 = [args] ∧
      (okEnv "cgroupfs").NewDockerService args = .ok ⟨7⟩ ∧
      args.pluginSettings.LegacyRuntimeHost = .noOpLegacyHostPtr none :=
  (legacy_host_is_the_noop_stub (okEnv "cgroupfs") "unix:///var/run/docker.sock"
    (some ⟨"0.0.0.0:11250"⟩) "/etc/cni/net.d" "/opt/cni/bin" "cgroupfs"
    "/var/lib/frakti/privileged").2 ⟨⟨7⟩⟩ rfl

/-- C8 at a concrete successful run. -/
theorem plugin_settings_fields_witness :
    ∃ args ∈ newDockerServiceCalls (NewPrivilegedRuntimeService (okEnv "cgroupfs")
        "unix:///var/run/docker.sock" (some ⟨"0.0.0.0:11250"⟩) "/etc/cni/net.d" "/opt/cni/bin"
        "cgroupfs" "/var/lib/frakti/privileged").1,
      ∃ kubeCfg,
        (okEnv "cgroupfs").Convert ((okEnv "cgroupfs").SetDefaults_KubeletConfiguration {})
          = .ok kubeCfg ∧
        args.pluginSettings.PluginName = "cni" ∧
        args.pluginSettings.MTU = 1460 ∧
        args.pluginSettings.PluginConfDir = "/etc/cni/net.d" ∧
        args.pluginSettings.PluginBinDir = "/opt/cni/bin" ∧
        args.pluginSettings.HairpinMode = kubeCfg.HairpinMode ∧
        args.pluginSettings.NonMasqueradeCIDR = kubeCfg.NonMasqueradeCIDR :=
  ⟨builtArgs (okEnv "cgroupfs") sampleKubeCfg ⟨0⟩ (some ⟨"0.0.0.0:11250"⟩) "/etc/cni/net.d"
      "/opt/cni/bin" "cgroupfs" "/var/lib/frakti/privileged",
    List.Mem.head _,
    (plugin_settings_fields (okEnv "cgroupfs") "unix:///var/run/docker.sock"
      (some ⟨"0.0.0.0:11250"⟩) "/etc/cni/net.d" "/opt/cni/bin" "cgroupfs"
      "/var/lib/frakti/privileged").1 _ (List.Mem.head _)⟩

end Frakti
